import Mathlib

/-!
Shallow embedding of the presence mechanism of the Associate app
(publisher hook useOnlineStatus, single-subject observer hook
useUserOnlineStatus, cohort observer hook useOnlineAdvisors), translated
from the source file holding these hooks.  Timestamps are modelled as
integers (milliseconds since the epoch, the value a JS Date compares by);
nullable columns as Option; the asynchronous store operations as explicit
arguments (the database contents, a failure flag for each fallible call).
-/

namespace Associate

/-- A row of the user_status table: id, user_type, is_online, last_active
(nullable timestamp, in milliseconds), domain (nullable). -/
structure StatusRow where
  id : String
  user_type : String
  is_online : Bool
  last_active : Option Int
  domain : Option String
deriving Repr, DecidableEq

/-- A row of the profiles table, restricted to the columns the cohort
query selects: full_name, image_url, gender, bio, years_of_experience. -/
structure Profile where
  id : String
  full_name : Option String
  image_url : Option String
  gender : Option String
  bio : Option String
  years_of_experience : Option Int
deriving Repr, DecidableEq

/-- `new Date(Date.now() - 2 * 60 * 1000)`: the instant two minutes
before evaluation time, used as the freshness cutoff by both observers. -/
def twoMinutesAgo (now : Int) : Int := now - 2 * 60 * 1000

/-- The single-subject freshness test as written in useUserOnlineStatus:
`new Date(last_active) > new Date(twoMinutesAgo)` — a STRICT comparison,
false when last_active is absent. -/
def freshStrict (last_active : Option Int) (now : Int) : Bool :=
  match last_active with
  | some t => decide (twoMinutesAgo now < t)
  | none => false

/-- The cohort freshness test as written in useOnlineAdvisors:
`.gte('last_active', twoMinutesAgo)` — an INCLUSIVE comparison, false when
last_active is null. -/
def freshInclusive (last_active : Option Int) (now : Int) : Bool :=
  match last_active with
  | some t => decide (twoMinutesAgo now ≤ t)
  | none => false

/-- The verdict computed by useUserOnlineStatus from a row image:
`data?.is_online && data?.last_active && new Date(data.last_active) > new
Date(twoMinutesAgo)`, coerced to a boolean by `!!`. -/
def userOnlineVerdict (is_online : Bool) (last_active : Option Int)
    (now : Int) : Bool :=
  is_online && freshStrict last_active now

/-- `.select(...).eq('id', userId).single()`: succeeds only when exactly
one row of the table has the given id, errors otherwise (in particular
when no presence record exists for the subject). -/
def singleSelect (db : List StatusRow) (uid : String) :
    Except String StatusRow :=
  match db.filter (fun r => r.id == uid) with
  | [r] => Except.ok r
  | _ => Except.error "JSON object requested, multiple (or no) rows returned"

/-- checkStatus of useUserOnlineStatus: one read of the subject's row,
verdict from is_online and freshness; a read failure or an erroring
`.single()` is caught, logged, and degrades to a false verdict.  Returns
the verdict together with the error log entries. -/
def checkStatus (readFails : Bool) (db : List StatusRow) (uid : String)
    (now : Int) : Bool × List String :=
  if readFails then
    (false, ["Error checking online status"])
  else
    match singleSelect db uid with
    | Except.ok r => (userOnlineVerdict r.is_online r.last_active now, [])
    | Except.error e => (false, ["Error checking online status: " ++ e])

/-- The state a consumer of useUserOnlineStatus sees after the initial
effect has settled, plus bookkeeping of which external actions the hook
performed (didRead: the one-shot store read, subscribed: the realtime
change subscription). -/
structure UserStatusState where
  isOnline : Bool
  loading : Bool
  didRead : Bool
  subscribed : Bool
  logs : List String
deriving Repr, DecidableEq

/-- useUserOnlineStatus with a null or empty (falsy) subject id: the
effect returns after setLoading(false), leaving the initial
isOnline=false, performing no read and no subscription. -/
def noSubjectState : UserStatusState :=
  { isOnline := false, loading := false, didRead := false,
    subscribed := false, logs := [] }

/-- useUserOnlineStatus(userId): the hook state after the mount effect
ran and the initial checkStatus settled.  `if (!userId)` short-circuits on
null and on the empty string. -/
def useUserOnlineStatus (readFails : Bool) (db : List StatusRow)
    (userId : Option String) (now : Int) : UserStatusState :=
  match userId with
  | none => noSubjectState
  | some uid =>
    if uid == "" then noSubjectState
    else
      let vl := checkStatus readFails db uid now
      { isOnline := vl.1, loading := false, didRead := true,
        subscribed := true, logs := vl.2 }

/-- The new-row image carried by a postgres_changes payload, with the two
columns the handler reads; each may be absent. -/
structure PayloadNew where
  is_online : Option Bool
  last_active : Option Int
deriving Repr, DecidableEq

/-- A postgres_changes payload: `new` is the new-row image, absent for
events that carry none. -/
structure Payload where
  new : Option PayloadNew
deriving Repr, DecidableEq

/-- The subscription handler of useUserOnlineStatus: `if (payload.new)`
recompute the verdict from the event payload against "now" at
event-processing time; otherwise leave the current verdict in place. -/
def handleStatusChange (current : Bool) (p : Payload) (now : Int) : Bool :=
  match p.new with
  | none => current
  | some nd =>
    (match nd.is_online with
     | some b => b
     | none => false) && freshStrict nd.last_active now

/-- The observer state after the subscription handler processed one
change-notification event. -/
def observerOnChange (st : UserStatusState) (p : Payload) (now : Int) :
    UserStatusState :=
  { st with isOnline := handleStatusChange st.isOnline p now }

/-- The cohort query of useOnlineAdvisors, as the chain written in the
source: `.eq('user_type', 'advisor').eq('domain', domain)
.eq('is_online', true).gte('last_active', twoMinutesAgo)`. -/
def cohortQuery (db : List StatusRow) (d : String) (now : Int) :
    List StatusRow :=
  ((((db.filter (fun r => r.user_type == "advisor")).filter
      (fun r => r.domain == some d)).filter
      (fun r => r.is_online == true)).filter
      (fun r => freshInclusive r.last_active now))

/-- One element of the cohort result: the selected user_status columns
joined to the subject's profiles row (`profiles:id(...)`), absent when no
profile row matches. -/
structure AdvisorEntry where
  id : String
  is_online : Bool
  last_active : Option Int
  domain : Option String
  profiles : Option Profile
deriving Repr, DecidableEq

/-- The embedded-resource join `profiles:id(...)` of the cohort select:
attach the profiles row whose id equals the status row's id. -/
def joinProfile (profs : List Profile) (r : StatusRow) : AdvisorEntry :=
  { id := r.id, is_online := r.is_online, last_active := r.last_active,
    domain := r.domain, profiles := profs.find? (fun p => p.id == r.id) }

/-- fetchOnlineAdvisors of useOnlineAdvisors: run the cohort query with
the profile join; a failed fetch is caught, logged, and degrades to the
empty list. -/
def fetchOnlineAdvisors (fetchFails : Bool) (db : List StatusRow)
    (profs : List Profile) (d : String) (now : Int) :
    List AdvisorEntry × List String :=
  if fetchFails then
    ([], ["Error fetching online advisors"])
  else
    ((cohortQuery db d now).map (joinProfile profs), [])

/-- The state a consumer of useOnlineAdvisors sees after the initial
effect has settled, with bookkeeping of the query and the subscription. -/
structure CohortState where
  advisors : List AdvisorEntry
  loading : Bool
  didQuery : Bool
  subscribed : Bool
  logs : List String
deriving Repr, DecidableEq

/-- useOnlineAdvisors with a falsy domain: the effect returns after
setLoading(false), leaving the initial empty advisors list, performing no
query and no subscription. -/
def noDomainState : CohortState :=
  { advisors := [], loading := false, didQuery := false,
    subscribed := false, logs := [] }

/-- useOnlineAdvisors(domain): the hook state after the mount effect ran
and the initial fetchOnlineAdvisors settled.  `if (!domain)`
short-circuits on the empty string. -/
def useOnlineAdvisors (fetchFails : Bool) (db : List StatusRow)
    (profs : List Profile) (d : String) (now : Int) : CohortState :=
  if d == "" then noDomainState
  else
    let al := fetchOnlineAdvisors fetchFails db profs d now
    { advisors := al.1, loading := false, didQuery := true,
      subscribed := true, logs := al.2 }

/-- An upsert issued against the user_status table by the publisher's
updateStatus: the statusData object, keyed by the subject id. -/
structure Write where
  id : String
  user_type : String
  is_online : Bool
  last_active : Int
  domain : Option String
deriving Repr, DecidableEq

/-- The statusData object built by updateStatus: id, user_type,
is_online, last_active = now; the domain key is added only when
`userType === 'advisor' && domain` (domain present and non-empty). -/
def statusData (userId userType : String) (domain : Option String)
    (isOnline : Bool) (now : Int) : Write :=
  { id := userId, user_type := userType, is_online := isOnline,
    last_active := now,
    domain :=
      if userType == "advisor" &&
          (match domain with
           | some s => !(s == "")
           | none => false) then domain
      else none }

/-- updateStatus of useOnlineStatus: `if (!userId) return`, otherwise a
single upsert of statusData; the whole body is wrapped in try/catch, so a
failed upsert is logged and the error never propagates to the caller.
Returns the issued upserts (at most one) and the error log entries. -/
def updateStatus (upsertFails : Bool) (userId userType : String)
    (domain : Option String) (isOnline : Bool) (now : Int) :
    List Write × List String :=
  if userId == "" then ([], [])
  else
    ([statusData userId userType domain isOnline now],
     if upsertFails then ["Error updating online status"] else [])

/-- The publisher's run-time state: the appStateRef value, the upserts
issued so far (in order), the error logs, and whether the heartbeat
interval timer and the AppState change listener are currently
installed. -/
structure PubState where
  appState : String
  writes : List Write
  logs : List String
  intervalActive : Bool
  listenerActive : Bool
deriving Repr, DecidableEq

/-- The events driving useOnlineStatus: a heartbeat interval tick, an
AppState change delivery, and the effect's cleanup (teardown).  Each
carries the wall-clock time at which it fires and whether the upsert it
may issue fails. -/
inductive PubEvent where
  | tick (t : Int) (fails : Bool)
  | stateChange (s : String) (t : Int) (fails : Bool)
  | teardown (t : Int) (fails : Bool)
deriving Repr, DecidableEq

/-- Append the result of an updateStatus call to the publisher state. -/
def applyUpdate (st : PubState) (r : List Write × List String) : PubState :=
  { st with writes := st.writes ++ r.1, logs := st.logs ++ r.2 }

/-- The mount effect of useOnlineStatus: `if (!userId) return` installs
nothing; otherwise updateStatus(true) is called once, the 30s heartbeat
interval is created, and the AppState change listener is registered.
appStateRef starts at AppState.currentState. -/
def pubInit (userId userType : String) (domain : Option String)
    (initialAppState : String) (t0 : Int) (fails : Bool) : PubState :=
  if userId == "" then
    { appState := initialAppState, writes := [], logs := [],
      intervalActive := false, listenerActive := false }
  else
    applyUpdate
      { appState := initialAppState, writes := [], logs := [],
        intervalActive := true, listenerActive := true }
      (updateStatus fails userId userType domain true t0)

/-- One event of the publisher.  A tick runs only while the interval is
installed and sends a heartbeat only if appStateRef is 'active'.  The
AppState listener stores the new state, then writes online on 'active'
and offline on 'background'/'inactive'.  The cleanup clears the interval,
removes the listener, and issues a final updateStatus(false). -/
def pubStep (userId userType : String) (domain : Option String)
    (st : PubState) (e : PubEvent) : PubState :=
  match e with
  | .tick t fails =>
    if st.intervalActive && st.appState == "active" then
      applyUpdate st (updateStatus fails userId userType domain true t)
    else st
  | .stateChange s t fails =>
    if st.listenerActive then
      let st2 := { st with appState := s }
      if s == "active" then
        applyUpdate st2 (updateStatus fails userId userType domain true t)
      else if s == "background" || s == "inactive" then
        applyUpdate st2 (updateStatus fails userId userType domain false t)
      else st2
    else st
  | .teardown t fails =>
    if st.intervalActive || st.listenerActive then
      applyUpdate
        { st with intervalActive := false, listenerActive := false }
        (updateStatus fails userId userType domain false t)
    else st

/-- Run the publisher over a sequence of events. -/
def runPub (userId userType : String) (domain : Option String)
    (st : PubState) (evs : List PubEvent) : PubState :=
  evs.foldl (pubStep userId userType domain) st

/-- A heartbeat-only event trace: one successful tick per element of ts. -/
def tickTrace (ts : List Int) : List PubEvent :=
  ts.map (fun t => PubEvent.tick t false)

/-- Erase the failure flag of an event (the same event with a succeeding
upsert). -/
def stripFail : PubEvent → PubEvent
  | .tick t _ => .tick t false
  | .stateChange s t _ => .stateChange s t false
  | .teardown t _ => .teardown t false

lemma freshStrict_eq_true_iff (la : Option Int) (now : Int) :
    freshStrict la now = true ↔ ∃ t, la = some t ∧ now - 2 * 60 * 1000 < t := by
  cases la <;> simp [freshStrict, twoMinutesAgo]

lemma freshInclusive_eq_true_iff (la : Option Int) (now : Int) :
    freshInclusive la now = true ↔ ∃ t, la = some t ∧ now - 2 * 60 * 1000 ≤ t := by
  cases la <;> simp [freshInclusive, twoMinutesAgo]

lemma runPub_tickTrace (uid utype : String) (dom : Option String)
    (hu : uid ≠ "") :
    ∀ (ts : List Int) (st : PubState), st.intervalActive = true →
      st.appState = "active" →
      runPub uid utype dom st (tickTrace ts) =
        { st with writes :=
            st.writes ++ ts.map (fun t => statusData uid utype dom true t) } := by
  intro ts
  induction ts with
  | nil => intro st h1 h2; simp [runPub, tickTrace]
  | cons t ts ih =>
    intro st h1 h2
    have hstep : pubStep uid utype dom st (PubEvent.tick t false) =
        { st with writes := st.writes ++ [statusData uid utype dom true t] } := by
      simp [pubStep, h1, h2, updateStatus, applyUpdate, hu]
    have hsplit : runPub uid utype dom st (tickTrace (t :: ts)) =
        runPub uid utype dom (pubStep uid utype dom st (PubEvent.tick t false))
          (tickTrace ts) := by
      simp [runPub, tickTrace]
    rw [hsplit, hstep, ih _ (by simp [h1]) (by simp [h2])]
    simp

lemma pubStep_stripFail_core (uid utype : String) (dom : Option String)
    (a b : PubState) (e : PubEvent)
    (h1 : a.appState = b.appState) (h2 : a.writes = b.writes)
    (h3 : a.intervalActive = b.intervalActive)
    (h4 : a.listenerActive = b.listenerActive) :
    (pubStep uid utype dom a e).appState =
      (pubStep uid utype dom b (stripFail e)).appState ∧
    (pubStep uid utype dom a e).writes =
      (pubStep uid utype dom b (stripFail e)).writes ∧
    (pubStep uid utype dom a e).intervalActive =
      (pubStep uid utype dom b (stripFail e)).intervalActive ∧
    (pubStep uid utype dom a e).listenerActive =
      (pubStep uid utype dom b (stripFail e)).listenerActive := by
  cases e <;>
    simp [pubStep, stripFail, applyUpdate, updateStatus, h1, h2, h3, h4] <;>
    split_ifs <;> simp_all

lemma runPub_stripFail (uid utype : String) (dom : Option String) :
    ∀ (evs : List PubEvent) (a b : PubState),
      a.appState = b.appState → a.writes = b.writes →
      a.intervalActive = b.intervalActive →
      a.listenerActive = b.listenerActive →
      (runPub uid utype dom a evs).writes =
        (runPub uid utype dom b (evs.map stripFail)).writes := by
  intro evs
  induction evs with
  | nil => intro a b h1 h2 h3 h4; simpa [runPub] using h2
  | cons e evs ih =>
    intro a b h1 h2 h3 h4
    have hc := pubStep_stripFail_core uid utype dom a b e h1 h2 h3 h4
    simp only [runPub, List.foldl_cons, List.map_cons] at *
    exact ih _ _ hc.1 hc.2.1 hc.2.2.1 hc.2.2.2

/-- **C5** For a publisher (useOnlineStatus) whose app-state flag stays
'active', after N elapsed 30-second heartbeat intervals exactly N + 1
upsert writes have been issued for the subject (one initial write on
activation plus one per interval), each carrying is_online = true and a
strictly increasing last_active timestamp; a heartbeat tick that fires
while the app-state flag is not 'active' issues no write.  (The tick
times ts are the instants at which the interval fires, hence strictly
increasing and after the mount instant t0.) -/
theorem heartbeat_write_count (uid utype : String) (dom : Option String)
    (t0 : Int) (ts : List Int) (hu : uid ≠ "")
    (hmono : List.Chain' (fun a b => a < b) (t0 :: ts)) :
    ((runPub uid utype dom (pubInit uid utype dom "active" t0 false)
        (tickTrace ts)).writes.length = ts.length + 1 ∧
     (runPub uid utype dom (pubInit uid utype dom "active" t0 false)
        (tickTrace ts)).writes.map (fun w => w.last_active) = t0 :: ts ∧
     (∀ w ∈ (runPub uid utype dom (pubInit uid utype dom "active" t0 false)
        (tickTrace ts)).writes, w.is_online = true ∧ w.id = uid) ∧
     List.Chain' (fun a b => a < b)
       ((runPub uid utype dom (pubInit uid utype dom "active" t0 false)
          (tickTrace ts)).writes.map (fun w => w.last_active))) ∧
    (∀ (st : PubState) (t : Int) (f : Bool), st.appState ≠ "active" →
      (pubStep uid utype dom st (PubEvent.tick t f)).writes = st.writes) := by
  have hinit : pubInit uid utype dom "active" t0 false =
      { appState := "active",
        writes := [statusData uid utype dom true t0], logs := [],
        intervalActive := true, listenerActive := true } := by
    simp [pubInit, updateStatus, applyUpdate, hu]
  have hrun := runPub_tickTrace uid utype dom hu ts
    (pubInit uid utype dom "active" t0 false)
    (by simp [hinit]) (by simp [hinit])
  rw [hinit] at hrun
  have hwrites : (runPub uid utype dom
      (pubInit uid utype dom "active" t0 false) (tickTrace ts)).writes =
      statusData uid utype dom true t0 ::
        ts.map (fun t => statusData uid utype dom true t) := by
    rw [hinit, hrun]
    simp
  have hmap : (runPub uid utype dom
      (pubInit uid utype dom "active" t0 false) (tickTrace ts)).writes.map
        (fun w => w.last_active) = t0 :: ts := by
    rw [hwrites]
    simp [statusData, List.map_map, Function.comp_def]
  refine ⟨⟨?_, hmap, ?_, ?_⟩, ?_⟩
  · rw [hwrites]; simp
  · rw [hwrites]
    intro w hw
    rcases List.mem_cons.mp hw with rfl | hw2
    · simp [statusData]
    · rcases List.mem_map.mp hw2 with ⟨t, _, rfl⟩
      simp [statusData]
  · rw [hmap]; exact hmono
  · intro st t f h
    simp [pubStep, h]

/-- Witness for C5: subject "u1", mount at t0 = 0, two heartbeat ticks
at 30s and 60s. -/
theorem heartbeat_write_count_witness :
    ("u1" : String) ≠ "" ∧
    List.Chain' (fun a b => a < b) ((0 : Int) :: [30000, 60000]) ∧
    (((runPub "u1" "user" none (pubInit "u1" "user" none "active" 0 false)
        (tickTrace [30000, 60000])).writes.length = 2 + 1 ∧
      (runPub "u1" "user" none (pubInit "u1" "user" none "active" 0 false)
        (tickTrace [30000, 60000])).writes.map (fun w => w.last_active) =
        (0 : Int) :: [30000, 60000] ∧
      (∀ w ∈ (runPub "u1" "user" none
          (pubInit "u1" "user" none "active" 0 false)
          (tickTrace [30000, 60000])).writes,
        w.is_online = true ∧ w.id = "u1") ∧
      List.Chain' (fun a b => a < b)
        ((runPub "u1" "user" none (pubInit "u1" "user" none "active" 0 false)
          (tickTrace [30000, 60000])).writes.map (fun w => w.last_active))) ∧
     (∀ (st : PubState) (t : Int) (f : Bool), st.appState ≠ "active" →
       (pubStep "u1" "user" none st (PubEvent.tick t f)).writes =
         st.writes)) := by
  refine ⟨by decide, by norm_num [List.chain'_cons], ?_⟩
  exact heartbeat_write_count "u1" "user" none 0 [30000, 60000]
    (by decide) (by norm_num [List.chain'_cons])

/-- **C6** When the publisher's app-state listener receives a transition
to 'background' or 'inactive', it immediately issues an
is_online = false upsert for the subject without waiting for the next
heartbeat tick (the write is appended by the very transition event);
when it receives a transition to 'active', it immediately issues an
is_online = true upsert with a fresh timestamp (last_active = the
transition instant). -/
theorem appstate_transition_immediate_write (uid utype : String)
    (dom : Option String) (st : PubState) (t : Int) (f : Bool) (s : String)
    (hu : uid ≠ "") (hl : st.listenerActive = true) :
    ((s = "background" ∨ s = "inactive") →
      (pubStep uid utype dom st (PubEvent.stateChange s t f)).writes =
        st.writes ++ [statusData uid utype dom false t] ∧
      (statusData uid utype dom false t).is_online = false ∧
      (statusData uid utype dom false t).last_active = t) ∧
    ((pubStep uid utype dom st (PubEvent.stateChange "active" t f)).writes =
        st.writes ++ [statusData uid utype dom true t] ∧
      (statusData uid utype dom true t).is_online = true ∧
      (statusData uid utype dom true t).last_active = t) := by
  constructor
  · rintro (rfl | rfl) <;>
      simp [pubStep, hl, hu, updateStatus, applyUpdate, statusData]
  · simp [pubStep, hl, hu, updateStatus, applyUpdate, statusData]

/-- Witness for C6: a listener-active publisher state receiving a
'background' transition and an 'active' transition at t = 31000. -/
theorem appstate_transition_immediate_write_witness :
    ("u1" : String) ≠ "" ∧
    (PubState.mk "active" [] [] true true).listenerActive = true ∧
    ((("background" : String) = "background" ∨
        ("background" : String) = "inactive") →
      (pubStep "u1" "user" none (PubState.mk "active" [] [] true true)
        (PubEvent.stateChange "background" 31000 false)).writes =
        [] ++ [statusData "u1" "user" none false 31000] ∧
      (statusData "u1" "user" none false 31000).is_online = false ∧
      (statusData "u1" "user" none false 31000).last_active = 31000) ∧
    ((pubStep "u1" "user" none (PubState.mk "active" [] [] true true)
        (PubEvent.stateChange "active" 31000 false)).writes =
        [] ++ [statusData "u1" "user" none true 31000] ∧
      (statusData "u1" "user" none true 31000).is_online = true ∧
      (statusData "u1" "user" none true 31000).last_active = 31000) := by
  refine ⟨by decide, by decide, ?_, ?_⟩ <;>
  · have := appstate_transition_immediate_write "u1" "user" none
      (PubState.mk "active" [] [] true true) 31000 false "background"
      (by decide) (by decide)
    first
      | exact this.1
      | exact (appstate_transition_immediate_write "u1" "user" none
          (PubState.mk "active" [] [] true true) 31000 false "background"
          (by decide) (by decide)).2

/-- **C7** On teardown of the publisher (the subject changes or the hook
is unmounted), the cleanup cancels the heartbeat interval timer, removes
the foreground/background app-state listener, and issues exactly one
final is_online = false write for the subject (afterwards neither a tick
nor an app-state change mutates the state). -/
theorem teardown_cleanup (uid utype : String) (dom : Option String)
    (st : PubState) (t : Int) (f : Bool) (hu : uid ≠ "")
    (hi : st.intervalActive = true) :
    (pubStep uid utype dom st (PubEvent.teardown t f)).intervalActive = false ∧
    (pubStep uid utype dom st (PubEvent.teardown t f)).listenerActive = false ∧
    (pubStep uid utype dom st (PubEvent.teardown t f)).writes =
      st.writes ++ [statusData uid utype dom false t] ∧
    (statusData uid utype dom false t).is_online = false ∧
    (statusData uid utype dom false t).id = uid ∧
    (∀ (t2 : Int) (f2 : Bool),
      (pubStep uid utype dom (pubStep uid utype dom st (PubEvent.teardown t f))
        (PubEvent.tick t2 f2)).writes =
      (pubStep uid utype dom st (PubEvent.teardown t f)).writes) ∧
    (∀ (s2 : String) (t2 : Int) (f2 : Bool),
      pubStep uid utype dom (pubStep uid utype dom st (PubEvent.teardown t f))
        (PubEvent.stateChange s2 t2 f2) =
      pubStep uid utype dom st (PubEvent.teardown t f)) := by
  have h1 : pubStep uid utype dom st (PubEvent.teardown t f) =
      { st with
        intervalActive := false, listenerActive := false,
        writes := st.writes ++ [statusData uid utype dom false t],
        logs := st.logs ++
          (if f then ["Error updating online status"] else []) } := by
    simp [pubStep, hi, updateStatus, applyUpdate, hu]
  rw [h1]
  refine ⟨rfl, rfl, rfl, by simp [statusData], by simp [statusData], ?_, ?_⟩
  · intro t2 f2; simp [pubStep]
  · intro s2 t2 f2; simp [pubStep]

/-- Witness for C7: teardown at t = 90000 of a running publisher whose
upsert fails. -/
theorem teardown_cleanup_witness :
    ("u1" : String) ≠ "" ∧
    (PubState.mk "active" [] [] true true).intervalActive = true ∧
    ((pubStep "u1" "user" none (PubState.mk "active" [] [] true true)
        (PubEvent.teardown 90000 true)).intervalActive = false ∧
     (pubStep "u1" "user" none (PubState.mk "active" [] [] true true)
        (PubEvent.teardown 90000 true)).listenerActive = false ∧
     (pubStep "u1" "user" none (PubState.mk "active" [] [] true true)
        (PubEvent.teardown 90000 true)).writes =
       [] ++ [statusData "u1" "user" none false 90000] ∧
     (statusData "u1" "user" none false 90000).is_online = false ∧
     (statusData "u1" "user" none false 90000).id = "u1" ∧
     (∀ (t2 : Int) (f2 : Bool),
       (pubStep "u1" "user" none
         (pubStep "u1" "user" none (PubState.mk "active" [] [] true true)
           (PubEvent.teardown 90000 true)) (PubEvent.tick t2 f2)).writes =
       (pubStep "u1" "user" none (PubState.mk "active" [] [] true true)
         (PubEvent.teardown 90000 true)).writes) ∧
     (∀ (s2 : String) (t2 : Int) (f2 : Bool),
       pubStep "u1" "user" none
         (pubStep "u1" "user" none (PubState.mk "active" [] [] true true)
           (PubEvent.teardown 90000 true))
         (PubEvent.stateChange s2 t2 f2) =
       pubStep "u1" "user" none (PubState.mk "active" [] [] true true)
         (PubEvent.teardown 90000 true))) := by
  refine ⟨by decide, by decide, ?_⟩
  exact teardown_cleanup "u1" "user" none
    (PubState.mk "active" [] [] true true) 90000 true (by decide) (by decide)

/-- **C8** Every presence upsert issued by the publisher's updateStatus
is a single upsert keyed by the subject identifier, and any write
failure is caught and logged, never thrown into the caller (the model is
total; failure is recorded only in the log component); in particular a
failed write does not stop or pause the heartbeat: a run of the
publisher issues exactly the writes the failure-free run issues, and a
tick whose upsert fails still appends its write. -/
theorem updateStatus_single_keyed_caught (fail : Bool)
    (uid utype : String) (dom : Option String) (onl : Bool) (now : Int)
    (st : PubState) (evs : List PubEvent) :
    (updateStatus fail uid utype dom onl now).1.length ≤ 1 ∧
    (∀ w ∈ (updateStatus fail uid utype dom onl now).1, w.id = uid) ∧
    (updateStatus fail uid utype dom onl now).1 =
      (updateStatus false uid utype dom onl now).1 ∧
    (fail = true → uid ≠ "" →
      (updateStatus fail uid utype dom onl now).2 ≠ []) ∧
    ((runPub uid utype dom st evs).writes =
      (runPub uid utype dom st (evs.map stripFail)).writes) ∧
    (st.intervalActive = true → st.appState = "active" → uid ≠ "" →
      (pubStep uid utype dom st (PubEvent.tick now true)).writes =
        st.writes ++ [statusData uid utype dom true now]) := by
  refine ⟨?_, ?_, ?_, ?_, ?_, ?_⟩
  · by_cases h : uid = "" <;> simp [updateStatus, h]
  · by_cases h : uid = "" <;> simp [updateStatus, h, statusData]
  · by_cases h : uid = "" <;> simp [updateStatus, h]
  · rintro rfl h
    simp [updateStatus, h]
  · exact runPub_stripFail uid utype dom evs st st rfl rfl rfl rfl
  · intro h1 h2 h3
    simp [pubStep, h1, h2, updateStatus, applyUpdate, h3]

/-- Witness for C8: a failing upsert for subject "u1", and a run with a
failing tick and a failing teardown compared against its failure-free
counterpart. -/
theorem updateStatus_single_keyed_caught_witness :
    ((updateStatus true "u1" "user" none true 5).1.length ≤ 1 ∧
     (∀ w ∈ (updateStatus true "u1" "user" none true 5).1, w.id = "u1") ∧
     (updateStatus true "u1" "user" none true 5).1 =
       (updateStatus false "u1" "user" none true 5).1 ∧
     (true = true → ("u1" : String) ≠ "" →
       (updateStatus true "u1" "user" none true 5).2 ≠ []) ∧
     ((runPub "u1" "user" none (PubState.mk "active" [] [] true true)
         [PubEvent.tick 1 true, PubEvent.teardown 2 true]).writes =
       (runPub "u1" "user" none (PubState.mk "active" [] [] true true)
         ([PubEvent.tick 1 true, PubEvent.teardown 2 true].map stripFail)).writes) ∧
     ((PubState.mk "active" [] [] true true).intervalActive = true →
       (PubState.mk "active" [] [] true true).appState = "active" →
       ("u1" : String) ≠ "" →
       (pubStep "u1" "user" none (PubState.mk "active" [] [] true true)
         (PubEvent.tick 5 true)).writes =
         [] ++ [statusData "u1" "user" none true 5])) := by
  exact updateStatus_single_keyed_caught true "u1" "user" none true 5
    (PubState.mk "active" [] [] true true)
    [PubEvent.tick 1 true, PubEvent.teardown 2 true]

/-- **C1** For every presence record with is_online=true, both the
single-subject observer (useUserOnlineStatus) and the cohort observer
(useOnlineAdvisors) interpret the record as offline when its last_active
timestamp is older than 2 minutes relative to evaluation time: a record
with last_active = now - 3min (or now - 121s) yields verdict offline /
is excluded from the cohort result, and a record with
last_active = now - 119s yields verdict online / is included. -/
theorem freshness_law_both_observers (uid d : String) (now : Int)
    (hu : uid ≠ "") (hd : d ≠ "") :
    (useUserOnlineStatus false
      [⟨uid, "user", true, some (now - 3 * 60 * 1000), none⟩]
      (some uid) now).isOnline = false ∧
    (useUserOnlineStatus false
      [⟨uid, "user", true, some (now - 121 * 1000), none⟩]
      (some uid) now).isOnline = false ∧
    (useUserOnlineStatus false
      [⟨uid, "user", true, some (now - 119 * 1000), none⟩]
      (some uid) now).isOnline = true ∧
    (useOnlineAdvisors false
      [⟨uid, "advisor", true, some (now - 3 * 60 * 1000), some d⟩]
      [] d now).advisors = [] ∧
    (useOnlineAdvisors false
      [⟨uid, "advisor", true, some (now - 121 * 1000), some d⟩]
      [] d now).advisors = [] ∧
    (useOnlineAdvisors false
      [⟨uid, "advisor", true, some (now - 119 * 1000), some d⟩]
      [] d now).advisors =
      [joinProfile [] ⟨uid, "advisor", true, some (now - 119 * 1000), some d⟩] := by
  have hin : now ≤ now - 119000 + 120000 := by omega
  refine ⟨?_, ?_, ?_, ?_, ?_, ?_⟩ <;>
    simp [useUserOnlineStatus, checkStatus, singleSelect, userOnlineVerdict,
      useOnlineAdvisors, fetchOnlineAdvisors, cohortQuery,
      freshStrict, freshInclusive, twoMinutesAgo, hu, hd, hin] <;>
    omega

/-- Witness for C1 at a concrete subject, domain and instant. -/
theorem freshness_law_both_observers_witness :
    ("u1" : String) ≠ "" ∧ ("finance" : String) ≠ "" ∧
    (useUserOnlineStatus false
      [⟨"u1", "user", true, some ((1000000 : Int) - 3 * 60 * 1000), none⟩]
      (some "u1") 1000000).isOnline = false ∧
    (useUserOnlineStatus false
      [⟨"u1", "user", true, some ((1000000 : Int) - 121 * 1000), none⟩]
      (some "u1") 1000000).isOnline = false ∧
    (useUserOnlineStatus false
      [⟨"u1", "user", true, some ((1000000 : Int) - 119 * 1000), none⟩]
      (some "u1") 1000000).isOnline = true ∧
    (useOnlineAdvisors false
      [⟨"u1", "advisor", true, some ((1000000 : Int) - 3 * 60 * 1000), some "finance"⟩]
      [] "finance" 1000000).advisors = [] ∧
    (useOnlineAdvisors false
      [⟨"u1", "advisor", true, some ((1000000 : Int) - 121 * 1000), some "finance"⟩]
      [] "finance" 1000000).advisors = [] ∧
    (useOnlineAdvisors false
      [⟨"u1", "advisor", true, some ((1000000 : Int) - 119 * 1000), some "finance"⟩]
      [] "finance" 1000000).advisors =
      [joinProfile []
        ⟨"u1", "advisor", true, some ((1000000 : Int) - 119 * 1000), some "finance"⟩] := by
  refine ⟨by decide, by decide, ?_⟩
  exact freshness_law_both_observers "u1" "finance" 1000000 (by decide) (by decide)

/-- **C2** At the freshness boundary exactly — a record with
is_online=true and last_active equal to exactly now - 120s — the two
observers disagree: the single-subject observer useUserOnlineStatus
reports offline (strict greater-than against the two-minutes-ago
instant), while the cohort observer useOnlineAdvisors includes that
record (inclusive greater-than-or-equal filter); for timestamps strictly
on either side of the boundary the two freshness predicates agree. -/
theorem boundary_disagreement (uid d : String) (now : Int)
    (hu : uid ≠ "") (hd : d ≠ "") :
    (useUserOnlineStatus false
      [⟨uid, "user", true, some (now - 120 * 1000), none⟩]
      (some uid) now).isOnline = false ∧
    (useOnlineAdvisors false
      [⟨uid, "advisor", true, some (now - 120 * 1000), some d⟩]
      [] d now).advisors =
      [joinProfile [] ⟨uid, "advisor", true, some (now - 120 * 1000), some d⟩] ∧
    (∀ t : Int, t ≠ now - 120 * 1000 →
      freshStrict (some t) now = freshInclusive (some t) now) := by
  refine ⟨?_, ?_, ?_⟩
  · simp [useUserOnlineStatus, checkStatus, singleSelect, userOnlineVerdict,
      freshStrict, twoMinutesAgo, hu]
  · simp [useOnlineAdvisors, fetchOnlineAdvisors, cohortQuery,
      freshInclusive, twoMinutesAgo, hd]
  · intro t ht
    simp only [freshStrict, freshInclusive, twoMinutesAgo, decide_eq_decide]
    omega

/-- Witness for C2 at a concrete subject, domain and instant. -/
theorem boundary_disagreement_witness :
    ("u1" : String) ≠ "" ∧ ("tax" : String) ≠ "" ∧
    (useUserOnlineStatus false
      [⟨"u1", "user", true, some ((1000000 : Int) - 120 * 1000), none⟩]
      (some "u1") 1000000).isOnline = false ∧
    (useOnlineAdvisors false
      [⟨"u1", "advisor", true, some ((1000000 : Int) - 120 * 1000), some "tax"⟩]
      [] "tax" 1000000).advisors =
      [joinProfile []
        ⟨"u1", "advisor", true, some ((1000000 : Int) - 120 * 1000), some "tax"⟩] ∧
    (∀ t : Int, t ≠ (1000000 : Int) - 120 * 1000 →
      freshStrict (some t) 1000000 = freshInclusive (some t) 1000000) := by
  refine ⟨by decide, by decide, ?_⟩
  exact boundary_disagreement "u1" "tax" 1000000 (by decide) (by decide)

/-- **C3** For every domain d, the cohort query of useOnlineAdvisors
returns exactly the presence rows with user_type = 'advisor', domain = d,
is_online = true, and last_active >= now - 2min, each joined to its
profile attributes; for example, given advisor records {finance: A
online-fresh, B offline, tax: C online-fresh}, the query for 'finance'
returns exactly {A}. -/
theorem cohort_query_correctness (db : List StatusRow)
    (profs : List Profile) (d : String) (now : Int) (e : AdvisorEntry) :
    (e ∈ (fetchOnlineAdvisors false db profs d now).1 ↔
      ∃ r ∈ db, r.user_type = "advisor" ∧ r.domain = some d ∧
        r.is_online = true ∧
        (∃ t, r.last_active = some t ∧ now - 2 * 60 * 1000 ≤ t) ∧
        e = joinProfile profs r) ∧
    (fetchOnlineAdvisors false
      [⟨"A", "advisor", true, some (now - 1000), some "finance"⟩,
       ⟨"B", "advisor", false, some (now - 1000), some "finance"⟩,
       ⟨"C", "advisor", true, some (now - 1000), some "tax"⟩]
      profs "finance" now).1 =
      [joinProfile profs ⟨"A", "advisor", true, some (now - 1000), some "finance"⟩] := by
  constructor
  · simp [fetchOnlineAdvisors, cohortQuery, List.mem_map, List.mem_filter,
      freshInclusive_eq_true_iff]
    tauto
  · have hf : now ≤ now - 1000 + 120000 := by omega
    simp [fetchOnlineAdvisors, cohortQuery, freshInclusive, twoMinutesAgo, hf]

/-- **C4** For every subject id, if no presence record exists for that
subject or the initial read fails, useUserOnlineStatus yields
isOnline = false (fail-closed), and for every domain a failed cohort
fetch in useOnlineAdvisors yields the empty advisors list; in both cases
the failure is logged and no error is thrown to the caller (the model
functions are total: every failure is absorbed into the logs
component). -/
theorem fail_closed_observers (uid d : String) (db : List StatusRow)
    (profs : List Profile) (now : Int) (hu : uid ≠ "") (hd : d ≠ "")
    (habs : ∀ r ∈ db, r.id ≠ uid) :
    ((useUserOnlineStatus false db (some uid) now).isOnline = false ∧
     (useUserOnlineStatus false db (some uid) now).loading = false ∧
     (useUserOnlineStatus false db (some uid) now).logs ≠ []) ∧
    ((useUserOnlineStatus true db (some uid) now).isOnline = false ∧
     (useUserOnlineStatus true db (some uid) now).loading = false ∧
     (useUserOnlineStatus true db (some uid) now).logs ≠ []) ∧
    ((useOnlineAdvisors true db profs d now).advisors = [] ∧
     (useOnlineAdvisors true db profs d now).loading = false ∧
     (useOnlineAdvisors true db profs d now).logs ≠ []) := by
  have hfilter : db.filter (fun r => r.id == uid) = [] := by
    rw [List.filter_eq_nil_iff]
    intro r hr
    simpa using habs r hr
  refine ⟨?_, ?_, ?_⟩ <;>
    simp [useUserOnlineStatus, checkStatus, singleSelect, hfilter, hu,
      useOnlineAdvisors, fetchOnlineAdvisors, hd]

/-- Witness for C4: an empty store (so no record for subject "u1"), and
a failing read / a failing cohort fetch, at a concrete instant. -/
theorem fail_closed_observers_witness :
    ("u1" : String) ≠ "" ∧ ("finance" : String) ≠ "" ∧
    (∀ r ∈ ([] : List StatusRow), r.id ≠ "u1") ∧
    (((useUserOnlineStatus false [] (some "u1") 1000000).isOnline = false ∧
      (useUserOnlineStatus false [] (some "u1") 1000000).loading = false ∧
      (useUserOnlineStatus false [] (some "u1") 1000000).logs ≠ []) ∧
     ((useUserOnlineStatus true [] (some "u1") 1000000).isOnline = false ∧
      (useUserOnlineStatus true [] (some "u1") 1000000).loading = false ∧
      (useUserOnlineStatus true [] (some "u1") 1000000).logs ≠ []) ∧
     ((useOnlineAdvisors true [] [] "finance" 1000000).advisors = [] ∧
      (useOnlineAdvisors true [] [] "finance" 1000000).loading = false ∧
      (useOnlineAdvisors true [] [] "finance" 1000000).logs ≠ [])) := by
  refine ⟨by decide, by decide, by simp, ?_⟩
  exact fail_closed_observers "u1" "finance" [] [] 1000000
    (by decide) (by decide) (by simp)

/-- **C9** A null subject id passed to useUserOnlineStatus yields an
immediate result of loading = false and isOnline = false with no store
read and no change subscription performed; likewise an empty/falsy
domain passed to useOnlineAdvisors yields loading = false and an empty
advisors list with no query and no subscription performed. -/
theorem falsy_inputs_short_circuit (readFails fetchFails : Bool)
    (db : List StatusRow) (profs : List Profile) (now : Int) :
    (useUserOnlineStatus readFails db none now).loading = false ∧
    (useUserOnlineStatus readFails db none now).isOnline = false ∧
    (useUserOnlineStatus readFails db none now).didRead = false ∧
    (useUserOnlineStatus readFails db none now).subscribed = false ∧
    (useOnlineAdvisors fetchFails db profs "" now).loading = false ∧
    (useOnlineAdvisors fetchFails db profs "" now).advisors = [] ∧
    (useOnlineAdvisors fetchFails db profs "" now).didQuery = false ∧
    (useOnlineAdvisors fetchFails db profs "" now).subscribed = false := by
  refine ⟨rfl, rfl, rfl, rfl, ?_, ?_, ?_, ?_⟩ <;>
    simp [useOnlineAdvisors, noDomainState]

/-- **C10** For every change-notification event whose payload carries no
new-row image (payload.new absent, e.g. a row deletion), the
single-subject observer useUserOnlineStatus leaves its current verdict
unchanged rather than recomputing it; consequently a subject whose
presence record is deleted while being observed continues to show its
last computed status until the observer is re-activated. -/
theorem no_new_row_image_preserves_verdict (st : UserStatusState)
    (p : Payload) (now : Int) (h : p.new = none) :
    observerOnChange st p now = st ∧
    (observerOnChange st p now).isOnline = st.isOnline := by
  have : handleStatusChange st.isOnline p now = st.isOnline := by
    simp [handleStatusChange, h]
  exact ⟨by simp [observerOnChange, this], by simp [observerOnChange, this]⟩

/-- Witness for C10: a deletion event (no new-row image) received while
the last computed verdict was online leaves the state untouched. -/
theorem no_new_row_image_preserves_verdict_witness :
    (Payload.mk none).new = none ∧
    (observerOnChange
      ⟨true, false, true, true, []⟩ (Payload.mk none) 1000000 =
      ⟨true, false, true, true, []⟩ ∧
    (observerOnChange
      ⟨true, false, true, true, []⟩ (Payload.mk none) 1000000).isOnline =
      (⟨true, false, true, true, []⟩ : UserStatusState).isOnline) := by
  refine ⟨rfl, ?_⟩
  exact no_new_row_image_preserves_verdict
    ⟨true, false, true, true, []⟩ (Payload.mk none) 1000000 rfl

end Associate
